import Mathlib

/-!
Shallow embedding of `sdcm/nemesis.py` (fault-injection driver for a
database cluster under test).  Pure data is embedded directly; external
collaborators (cluster membership queries, remote command execution,
liveness waits) are passed in as explicit parameters or outcome values;
Python exceptions are embedded as `Except Err`; `random.choice` over a
sequence is embedded as an index draw `r` reduced modulo the length.
-/

set_option autoImplicit false

namespace SdcmNemesis

/-- Errors that the embedded code can raise.  `indexError` models Python's
builtin `IndexError` (raised by `random.choice` on an empty sequence),
`valueError` models `list.remove` on an absent element, `assertionError`
models a failed `assert` with its message, `cmdFailed` a remote command
terminating with non-zero status (when `ignore_status` is not set),
`waitTimeout` a failed liveness wait, and `notImplementedError` the base
class `disrupt`.  `noEligibleTargetError` is modelled from the spec: §4.1
names a dedicated `NoEligibleTargetError` for an all-seed cluster; no code
path in `nemesis.py` constructs it (the constructor exists so that the
claim mentioning it is statable). -/
inductive Err where
  | indexError
  | valueError
  | assertionError (msg : String)
  | cmdFailed (cmd : String)
  | waitTimeout (what : String)
  | notImplementedError
  | noEligibleTargetError
deriving DecidableEq, Repr

/-- A cluster member as the nemesis code observes it: an identity, a private
IP address (`instance.private_ip_address`, embedded as a `Nat`), and the
`is_seed` flag.  The node lifecycle operations (`restart`, `destroy`,
`wait_db_down`, `wait_db_up`) live on the external collaborator and are
passed into the embedded actions as outcome parameters. -/
structure Node where
  id : Nat
  ip : Nat
  is_seed : Bool
deriving DecidableEq, Repr

/-- One record of `cluster.get_node_info_list`: the code only reads the
`ip` field (`node_info['ip']`). -/
structure NodeInfo where
  ip : Nat
deriving DecidableEq, Repr

/-- Result object of `remoter.run`: the code reads `command` and
`duration` for logging only. -/
structure CmdResult where
  command : String
  duration : Nat
deriving DecidableEq, Repr

/-- Log entries the claims talk about.  `errorLog` is
`self.log.error('Disrupt method %s failed', method, exc_info=True)`:
it carries the failed method's name and the full error detail. -/
inductive LogEntry where
  | infoLog (msg : String)
  | debugLog (msg : String)
  | errorLog (method : String) (detail : Err)
deriving DecidableEq, Repr

/-- Embedding of `random.choice(seq)`: raises `IndexError` on an empty
sequence, otherwise returns the element at the drawn index `r` reduced
modulo the length (uniform when `r` is uniform). -/
def randomChoice {α : Type} (l : List α) (r : Nat) : Except Err α :=
  match l with
  | [] => .error .indexError
  | x :: xs => .ok ((x :: xs).get ⟨r % (x :: xs).length, Nat.mod_lt _ (Nat.succ_pos _)⟩)

/-- Embedding of `Nemesis.set_target_node`: filter the cluster's node list
to the non-seed nodes and pick one with `random.choice`.  The informational
log of the chosen target is not modelled. -/
def set_target_node (nodes : List Node) (r : Nat) : Except Err Node :=
  let non_seed_nodes := nodes.filter (fun node => !node.is_seed)
  randomChoice non_seed_nodes r

/-- Members of a concrete `Nemesis` subclass instance as
`inspect.getmembers(self)` reports them, in its sorted order: every method
defined in `nemesis.py` plus the instance attributes set in `__init__`,
each paired with whether it is callable. -/
def nemesisMembers : List (String × Bool) :=
  [("__init__", true),
   ("__str__", true),
   ("_destroy_data", true),
   ("call_random_disrupt_method", true),
   ("cluster", false),
   ("disrupt", true),
   ("disrupt_destroy_data_then_rebuild", true),
   ("disrupt_destroy_data_then_repair", true),
   ("disrupt_kill_scylla_daemon", true),
   ("disrupt_nodetool_decommission", true),
   ("disrupt_nodetool_drain", true),
   ("disrupt_stop_start", true),
   ("log", false),
   ("repair_nodetool_rebuild", true),
   ("repair_nodetool_repair", true),
   ("run", true),
   ("set_target_node", true),
   ("target_node", false),
   ("termination_event", false)]

/-- Embedding of Python's `str.startswith`: a prefix test on the
character sequence of the string. -/
def pyStartsWith (s p : String) : Bool :=
  p.data.isPrefixOf s.data

/-- Embedding of the candidate list built in
`Nemesis.call_random_disrupt_method`: members whose name starts with
the prefix string `disrupt_` and which are callable. -/
def disrupt_methods : List String :=
  (nemesisMembers.filter
    (fun attr => pyStartsWith attr.1 "disrupt_" && attr.2)).map (fun attr => attr.1)

/-- Embedding of `Nemesis.call_random_disrupt_method`.  The behaviour of
the catalog entries is abstracted by `act`, mapping a method name to the
outcome of invoking it.  A member is drawn from `disrupt_methods` with
`random.choice`; the invocation sits inside `try/except Exception`: an
error is logged (`errorLog` with the method name and the full detail, per
`exc_info=True`) and the method returns normally. -/
def call_random_disrupt_method (act : String → Except Err Unit) (r : Nat) :
    List LogEntry × Except Err Unit :=
  match randomChoice disrupt_methods r with
  | .error e => ([], .error e)
  | .ok m =>
    match act m with
    | .ok _ => ([], .ok ())
    | .error e => ([.errorLog m e], .ok ())

/-- Embedding of the `log_time_elapsed` decorator: log a start entry, run
the wrapped method, and in a `finally` block log the elapsed duration; the
wrapped method's result or exception passes through unchanged. -/
def log_time_elapsed (methodName : String) (outcome : List LogEntry × Except Err Unit) :
    List LogEntry × Except Err Unit :=
  (.debugLog (methodName ++ " Start") :: outcome.1 ++ [.debugLog (methodName ++ " duration")],
   outcome.2)

/-- Embedding of `StopStartMonkey.disrupt`: the decorated direct call of
the fixed catalog entry `disrupt_stop_start`; errors propagate. -/
def StopStartMonkey.disrupt (act : String → Except Err Unit) :
    List LogEntry × Except Err Unit :=
  log_time_elapsed "disrupt" ([], act "disrupt_stop_start")

/-- Embedding of `DrainerMonkey.disrupt`: the decorated direct call of the
fixed catalog entry `disrupt_nodetool_drain`; errors propagate. -/
def DrainerMonkey.disrupt (act : String → Except Err Unit) :
    List LogEntry × Except Err Unit :=
  log_time_elapsed "disrupt" ([], act "disrupt_nodetool_drain")

/-- Embedding of `CorruptThenRepairMonkey.disrupt`: the decorated direct
call of `disrupt_destroy_data_then_repair`; errors propagate. -/
def CorruptThenRepairMonkey.disrupt (act : String → Except Err Unit) :
    List LogEntry × Except Err Unit :=
  log_time_elapsed "disrupt" ([], act "disrupt_destroy_data_then_repair")

/-- Embedding of `CorruptThenRebuildMonkey.disrupt`: the decorated direct
call of `disrupt_destroy_data_then_rebuild`; errors propagate. -/
def CorruptThenRebuildMonkey.disrupt (act : String → Except Err Unit) :
    List LogEntry × Except Err Unit :=
  log_time_elapsed "disrupt" ([], act "disrupt_destroy_data_then_rebuild")

/-- Embedding of `DecommissionMonkey.disrupt`: the decorated direct call of
`disrupt_nodetool_decommission`; errors propagate. -/
def DecommissionMonkey.disrupt (act : String → Except Err Unit) :
    List LogEntry × Except Err Unit :=
  log_time_elapsed "disrupt" ([], act "disrupt_nodetool_decommission")

/-- Embedding of `ChaosMonkey.disrupt`: the decorated call of the dynamic
dispatcher `call_random_disrupt_method`. -/
def ChaosMonkey.disrupt (act : String → Except Err Unit) (r : Nat) :
    List LogEntry × Except Err Unit :=
  log_time_elapsed "disrupt" (call_random_disrupt_method act r)

/-- Steps of `disrupt_kill_scylla_daemon` in invocation order.  `killCmd`
records the exit status of `sudo pkill -9 scylla`; `waitDown` and `waitUp`
record that the liveness wait was invoked. -/
inductive KillStep where
  | killCmd (status : Int)
  | waitDown
  | waitUp
deriving DecidableEq, Repr

/-- Embedding of `Nemesis.disrupt_kill_scylla_daemon`: run the kill command
with `ignore_status=True` (a non-zero `killStatus` raises nothing), then
`wait_db_down`, then `wait_db_up`; each wait's outcome is supplied by the
external node collaborator and a failure propagates, cutting the sequence
short.  Returns the trace of invoked steps and the overall outcome. -/
def disrupt_kill_scylla_daemon (killStatus : Int)
    (downOutcome upOutcome : Except Err Unit) :
    List KillStep × Except Err Unit :=
  let trace := [KillStep.killCmd killStatus]
  match downOutcome with
  | .error e => (trace ++ [KillStep.waitDown], .error e)
  | .ok _ =>
    match upOutcome with
    | .error e => (trace ++ [KillStep.waitDown, KillStep.waitUp], .error e)
    | .ok _ => (trace ++ [KillStep.waitDown, KillStep.waitUp], .ok ())

/-- Embedding of the verification-node sampling loop in
`disrupt_nodetool_decommission`: draw with `random.choice(cluster.nodes)`
and redraw while the draw equals the target.  `r` supplies the successive
index draws starting at position `i`; `fuel` bounds the unrolling (`none`
means the loop has not left the redraw cycle within `fuel` draws, or that
the node list was empty and `random.choice` raised). -/
def pickVerificationNodeAux (nodes : List Node) (target : Node) (r : Nat → Nat) :
    Nat → Nat → Option Node
  | _, 0 => none
  | i, fuel + 1 =>
    match randomChoice nodes (r i) with
    | .error _ => none
    | .ok v => if v = target then pickVerificationNodeAux nodes target r (i + 1) fuel else some v

/-- The verification-node sampling loop started at draw position 0. -/
def pickVerificationNode (nodes : List Node) (target : Node) (r : Nat → Nat) (fuel : Nat) :
    Option Node :=
  pickVerificationNodeAux nodes target r 0 fuel

/-- Modelled from the spec: `Cluster.add_nodes(count)` is an external
collaborator operation (§6) that creates `count` fresh nodes, appends them
to the cluster's node set, and returns the list of new nodes; `mk` supplies
the fresh node for each index. -/
def Cluster.add_nodes (nodes : List Node) (count : Nat) (mk : Nat → Node) :
    List Node × List Node :=
  let newNodes := (List.range count).map mk
  (nodes ++ newNodes, newNodes)

/-- External-collaborator inputs of one `disrupt_nodetool_decommission`
call: the outcome of the `nodetool decommission` remote command, the
per-draw randomness and fuel for the verification-node loop, the
membership view `node_info` returned by `get_node_info_list` as seen from
each possible verification node, the fresh node `add_nodes` creates, and
the outcome of `wait_for_init`. -/
structure DecommissionEnv where
  cmdOutcome : Except Err CmdResult
  verifRand : Nat → Nat
  verifFuel : Nat
  nodeInfo : Node → List NodeInfo
  mkNode : Nat → Node
  waitInitOutcome : Except Err Unit

/-- Message of the membership assertion in `disrupt_nodetool_decommission`
(the interpolated node and status details are not modelled). -/
def decommissionAssertMsg : String :=
  "Node that was decommissioned still in the cluster"

/-- Embedding of `Nemesis.disrupt_nodetool_decommission`.  Returns `none`
when the verification-node redraw loop does not terminate within the fuel,
otherwise the cluster node list after the call together with the outcome
(the node list is returned even when an exception propagates, so the state
on error paths is visible).  Steps, in source order: run the decommission
command (a failure propagates with the node list untouched); pick a
verification node distinct from the target; read the membership view from
it and collect the `ip` fields; assert the target's IP is absent — on
failure raise `assertionError` with the node list untouched; only then
`cluster.nodes.remove(target)` (Python raises `ValueError` when the
element is absent), destroy the target (external side effect, no bearing
on the node list), `add_nodes(count=1)` and `wait_for_init` on the new
nodes. -/
def disrupt_nodetool_decommission (nodes : List Node) (target : Node)
    (env : DecommissionEnv) : Option (List Node × Except Err Unit) :=
  match env.cmdOutcome with
  | .error e => some (nodes, .error e)
  | .ok _ =>
    match pickVerificationNode nodes target env.verifRand env.verifFuel with
    | none => none
    | some verification_node =>
      let node_info_list := env.nodeInfo verification_node
      let private_ips := node_info_list.map (fun node_info => node_info.ip)
      if target.ip ∈ private_ips then
        some (nodes, .error (.assertionError decommissionAssertMsg))
      else if target ∈ nodes then
        let removed := nodes.erase target
        let added := Cluster.add_nodes removed 1 env.mkNode
        match env.waitInitOutcome with
        | .error e => some (added.1, .error e)
        | .ok _ => some (added.1, .ok ())
      else
        some (nodes, .error .valueError)

/-- Observable events of one `Nemesis.run` execution, in program order:
the blocking wait (with its length in seconds), the dispatched `disrupt()`
call, the termination checkpoint together with the polled value, and the
target re-selection `set_target_node()`. -/
inductive Event where
  | sleep (seconds : Nat)
  | disrupt
  | checkTermination (observed : Bool)
  | selectTarget
deriving DecidableEq, Repr

/-- How a (fuel-bounded) `Nemesis.run` execution ended: `stopped` when the
loop exited via `break`, `raised` when `disrupt()` propagated an exception
out of `run`, `running` when the fuel ran out with the loop still going
(the loop has no other exit). -/
inductive RunOutcome where
  | stopped
  | raised (e : Err)
  | running
deriving DecidableEq, Repr

/-- Embedding of the `while True` loop of `Nemesis.run`, cycle by cycle,
from cycle `i` with `fuel` remaining cycles.  Each cycle sleeps, invokes
`self.disrupt()` (whose outcome per cycle is `disruptOutcome`; an
exception propagates out of the loop), then — only when the `run` argument
`termination_event` is not `None` — polls `self.termination_event.isSet()`
(the construction-time attribute, embedded as `selfSignal`; the `run`
argument's own value is never read) and breaks when it is set; otherwise
it re-selects the target and starts the next cycle.  Returns the event
trace and how the execution ended.  A failure of the re-selection itself
is not modelled (it would abort the loop even earlier). -/
def runAux (seconds : Nat) (termination_event : Option (Nat → Bool))
    (selfSignal : Nat → Bool) (disruptOutcome : Nat → Except Err Unit) :
    Nat → Nat → List Event × RunOutcome
  | _, 0 => ([], .running)
  | i, fuel + 1 =>
    match disruptOutcome i with
    | .error e => ([.sleep seconds, .disrupt], .raised e)
    | .ok _ =>
      match termination_event with
      | some _ =>
        if selfSignal i then
          ([.sleep seconds, .disrupt, .checkTermination true], .stopped)
        else
          let rest := runAux seconds termination_event selfSignal disruptOutcome (i + 1) fuel
          (.sleep seconds :: .disrupt :: .checkTermination false :: .selectTarget :: rest.1,
           rest.2)
      | none =>
        let rest := runAux seconds termination_event selfSignal disruptOutcome (i + 1) fuel
        (.sleep seconds :: .disrupt :: .selectTarget :: rest.1, rest.2)

/-- Embedding of `Nemesis.run(interval=30, termination_event=None)`: the
public interval is in minutes and is scaled by 60 to seconds before the
loop starts. -/
def Nemesis.run (interval : Nat) (termination_event : Option (Nat → Bool))
    (selfSignal : Nat → Bool) (disruptOutcome : Nat → Except Err Unit)
    (fuel : Nat) : List Event × RunOutcome :=
  runAux (interval * 60) termination_event selfSignal disruptOutcome 0 fuel

/-- Does an `Event` poll the termination signal (with either observed value)? -/
def Event.isTerminationCheck : Event → Bool
  | Event.checkTermination _ => true
  | _ => false

/-- Is every event that follows an observation of the termination signal
as set absent, i.e. does a `checkTermination true` event (when present)
close the trace? -/
def noEventAfterSetObservation : List Event → Bool
  | [] => true
  | Event.checkTermination true :: rest => rest.isEmpty
  | _ :: rest => noEventAfterSetObservation rest

theorem runAux_succ (seconds : Nat) (termination_event : Option (Nat → Bool))
    (selfSignal : Nat → Bool) (disruptOutcome : Nat → Except Err Unit)
    (i fuel : Nat) :
    runAux seconds termination_event selfSignal disruptOutcome i (fuel + 1) =
      match disruptOutcome i with
      | .error e => ([.sleep seconds, .disrupt], .raised e)
      | .ok _ =>
        match termination_event with
        | some _ =>
          if selfSignal i then
            ([.sleep seconds, .disrupt, .checkTermination true], .stopped)
          else
            let rest := runAux seconds termination_event selfSignal disruptOutcome (i + 1) fuel
            (.sleep seconds :: .disrupt :: .checkTermination false :: .selectTarget :: rest.1,
             rest.2)
        | none =>
          let rest := runAux seconds termination_event selfSignal disruptOutcome (i + 1) fuel
          (.sleep seconds :: .disrupt :: .selectTarget :: rest.1, rest.2) := rfl

theorem randomChoice_ok_mem {α : Type} {l : List α} {r : Nat} {a : α}
    (h : randomChoice l r = .ok a) : a ∈ l := by
  cases l with
  | nil => simp [randomChoice] at h
  | cons x xs =>
    simp only [randomChoice, Except.ok.injEq] at h
    exact h ▸ List.get_mem _ _ _

theorem randomChoice_ok_of_ne_nil {α : Type} (l : List α) (r : Nat) (h : l ≠ []) :
    ∃ a, randomChoice l r = .ok a := by
  cases l with
  | nil => exact absurd rfl h
  | cons x xs => exact ⟨_, rfl⟩

/-- C5: whenever the cluster holds at least one non-seed node, the target
selector returns successfully and the returned node is a non-seed node; a
seed node is never selected. -/
theorem set_target_node_never_seed (nodes : List Node) (r : Nat)
    (h : ∃ n ∈ nodes, n.is_seed = false) :
    ∃ t, set_target_node nodes r = .ok t ∧ t.is_seed = false := by
  obtain ⟨n, hn, hs⟩ := h
  have hmem : n ∈ nodes.filter (fun node => !node.is_seed) := by
    rw [List.mem_filter]
    exact ⟨hn, by simp [hs]⟩
  have hne : nodes.filter (fun node => !node.is_seed) ≠ [] :=
    List.ne_nil_of_mem hmem
  obtain ⟨t, ht⟩ := randomChoice_ok_of_ne_nil _ r hne
  refine ⟨t, ht, ?_⟩
  have := List.mem_filter.mp (randomChoice_ok_mem ht)
  simpa using this.2

theorem set_target_node_never_seed_witness :
    (∃ n ∈ [Node.mk 0 10 true, Node.mk 1 11 false], n.is_seed = false) ∧
    ∃ t, set_target_node [Node.mk 0 10 true, Node.mk 1 11 false] 0 = .ok t ∧
      t.is_seed = false :=
  ⟨⟨Node.mk 1 11 false, by decide⟩,
   set_target_node_never_seed [Node.mk 0 10 true, Node.mk 1 11 false] 0
     ⟨Node.mk 1 11 false, by decide⟩⟩

/-- C4 counterexample: on an all-seed cluster the target selector does not
fail with the spec's dedicated `NoEligibleTargetError`; `random.choice` on
the empty filtered list raises the generic builtin `IndexError`. -/
theorem set_target_node_all_seed_counterexample :
    set_target_node [Node.mk 0 10 true] 0 = .error .indexError ∧
    Err.indexError ≠ Err.noEligibleTargetError :=
  ⟨rfl, by decide⟩

/-- C4 amended: when no node of the cluster has its seed flag false, the
target selector fails, but with the generic `IndexError` coming out of
`random.choice` on an empty sequence, not with a dedicated named error. -/
theorem set_target_node_all_seed_index_error (nodes : List Node) (r : Nat)
    (h : ∀ n ∈ nodes, n.is_seed = true) :
    set_target_node nodes r = .error .indexError := by
  have hnil : nodes.filter (fun node => !node.is_seed) = [] := by
    rw [List.filter_eq_nil_iff]
    intro n hn
    simp [h n hn]
  unfold set_target_node
  rw [hnil]
  rfl

theorem set_target_node_all_seed_index_error_witness :
    (∀ n ∈ [Node.mk 0 10 true, Node.mk 1 11 true], n.is_seed = true) ∧
    set_target_node [Node.mk 0 10 true, Node.mk 1 11 true] 5 = .error .indexError :=
  ⟨by decide,
   set_target_node_all_seed_index_error [Node.mk 0 10 true, Node.mk 1 11 true] 5
     (by decide)⟩

/-- C7: the candidate list the dynamic strategy draws from is exactly the
six user-facing disruptive actions, and contains neither of the two helper
actions, nor the strategy entry point `disrupt`, nor the private
`_destroy_data`, nor any other member of the object. -/
theorem chaos_candidate_set :
    disrupt_methods =
      ["disrupt_destroy_data_then_rebuild", "disrupt_destroy_data_then_repair",
       "disrupt_kill_scylla_daemon", "disrupt_nodetool_decommission",
       "disrupt_nodetool_drain", "disrupt_stop_start"] ∧
    "repair_nodetool_repair" ∉ disrupt_methods ∧
    "repair_nodetool_rebuild" ∉ disrupt_methods ∧
    "disrupt" ∉ disrupt_methods ∧
    "_destroy_data" ∉ disrupt_methods := by decide

theorem pickVerificationNodeAux_ne_target (nodes : List Node) (target : Node)
    (r : Nat → Nat) :
    ∀ fuel i v, pickVerificationNodeAux nodes target r i fuel = some v → v ≠ target := by
  intro fuel
  induction fuel with
  | zero => intro i v h; simp [pickVerificationNodeAux] at h
  | succ n ih =>
    intro i v h
    unfold pickVerificationNodeAux at h
    split at h
    · exact absurd h (by simp)
    · split at h
      · exact ih (i + 1) v h
      · cases h
        assumption

/-- C9: whenever the verification-node sampling loop of the decommission
action terminates with a node (in a cluster of at least two nodes), that
node differs from the target: the draw is repeated until distinct. -/
theorem verification_node_ne_target (nodes : List Node) (target : Node)
    (r : Nat → Nat) (fuel : Nat) (v : Node) (hsize : 2 ≤ nodes.length)
    (h : pickVerificationNode nodes target r fuel = some v) : v ≠ target :=
  pickVerificationNodeAux_ne_target nodes target r fuel 0 v h

theorem verification_node_ne_target_witness :
    2 ≤ ([Node.mk 0 10 false, Node.mk 1 11 false] : List Node).length ∧
    Node.mk 1 11 false ≠ Node.mk 0 10 false :=
  ⟨by decide,
   verification_node_ne_target [Node.mk 0 10 false, Node.mk 1 11 false]
     (Node.mk 0 10 false) (fun _ => 1) 1 (Node.mk 1 11 false) (by decide) rfl⟩

/-- C8: the kill-daemon action performs exactly the sequence kill (status
ignored), wait-down, wait-up; when wait-down fails, wait-up is never
invoked and the failure propagates; and the exit status of the kill
command has no bearing on the outcome. -/
theorem kill_scylla_daemon_sequence (killStatus : Int)
    (downOutcome upOutcome : Except Err Unit) :
    (downOutcome = .ok () → upOutcome = .ok () →
      disrupt_kill_scylla_daemon killStatus downOutcome upOutcome =
        ([.killCmd killStatus, .waitDown, .waitUp], .ok ())) ∧
    (∀ e, downOutcome = .error e →
      disrupt_kill_scylla_daemon killStatus downOutcome upOutcome =
        ([.killCmd killStatus, .waitDown], .error e)) ∧
    (∀ s : Int, (disrupt_kill_scylla_daemon s downOutcome upOutcome).2 =
      (disrupt_kill_scylla_daemon killStatus downOutcome upOutcome).2) := by
  refine ⟨?_, ?_, ?_⟩
  · intro hd hu
    subst hd; subst hu
    rfl
  · intro e hd
    subst hd
    rfl
  · intro s
    cases downOutcome with
    | error e => rfl
    | ok u =>
      cases upOutcome with
      | error e => rfl
      | ok u => rfl

theorem kill_scylla_daemon_sequence_witness :
    disrupt_kill_scylla_daemon 137 (.ok ()) (.ok ()) =
      ([.killCmd 137, .waitDown, .waitUp], .ok ()) ∧
    disrupt_kill_scylla_daemon 0 (.error (.waitTimeout "db down")) (.ok ()) =
      ([.killCmd 0, .waitDown], .error (.waitTimeout "db down")) :=
  ⟨(kill_scylla_daemon_sequence 137 (.ok ()) (.ok ())).1 rfl rfl,
   (kill_scylla_daemon_sequence 0 (.error (.waitTimeout "db down")) (.ok ())).2.1
     (.waitTimeout "db down") rfl⟩

/-- C1: in the dynamic strategy, an error raised by the drawn catalog
entry is caught: the dispatcher returns normally (`.ok ()`), the error log
carries the action's name and the full error detail, and the decorated
`ChaosMonkey.disrupt` also returns normally; in each of the five
fixed-action strategies an error raised by the invoked catalog entry
propagates to the caller unchanged. -/
theorem chaos_catches_fixed_propagate (act : String → Except Err Unit) (r : Nat)
    (m : String) (e : Err)
    (hm : randomChoice disrupt_methods r = .ok m)
    (he : act m = .error e) :
    (call_random_disrupt_method act r).2 = .ok () ∧
    LogEntry.errorLog m e ∈ (call_random_disrupt_method act r).1 ∧
    (ChaosMonkey.disrupt act r).2 = .ok () ∧
    (∀ e', act "disrupt_stop_start" = .error e' →
      (StopStartMonkey.disrupt act).2 = .error e') ∧
    (∀ e', act "disrupt_nodetool_drain" = .error e' →
      (DrainerMonkey.disrupt act).2 = .error e') ∧
    (∀ e', act "disrupt_destroy_data_then_repair" = .error e' →
      (CorruptThenRepairMonkey.disrupt act).2 = .error e') ∧
    (∀ e', act "disrupt_destroy_data_then_rebuild" = .error e' →
      (CorruptThenRebuildMonkey.disrupt act).2 = .error e') ∧
    (∀ e', act "disrupt_nodetool_decommission" = .error e' →
      (DecommissionMonkey.disrupt act).2 = .error e') := by
  have hdisp : call_random_disrupt_method act r = ([.errorLog m e], .ok ()) := by
    unfold call_random_disrupt_method
    rw [hm]
    dsimp only
    rw [he]
  refine ⟨by rw [hdisp], by rw [hdisp]; exact List.mem_singleton.mpr rfl, ?_, ?_, ?_, ?_, ?_, ?_⟩
  · unfold ChaosMonkey.disrupt log_time_elapsed
    rw [hdisp]
  · intro e' he'
    unfold StopStartMonkey.disrupt log_time_elapsed
    rw [he']
  · intro e' he'
    unfold DrainerMonkey.disrupt log_time_elapsed
    rw [he']
  · intro e' he'
    unfold CorruptThenRepairMonkey.disrupt log_time_elapsed
    rw [he']
  · intro e' he'
    unfold CorruptThenRebuildMonkey.disrupt log_time_elapsed
    rw [he']
  · intro e' he'
    unfold DecommissionMonkey.disrupt log_time_elapsed
    rw [he']

theorem chaos_catches_fixed_propagate_witness :
    (call_random_disrupt_method (fun _ => .error .valueError) 0).2 = .ok () ∧
    LogEntry.errorLog "disrupt_destroy_data_then_rebuild" .valueError ∈
      (call_random_disrupt_method (fun _ => .error .valueError) 0).1 ∧
    (StopStartMonkey.disrupt (fun _ => .error .valueError)).2 = .error .valueError :=
  ⟨(chaos_catches_fixed_propagate (fun _ => .error .valueError) 0
      "disrupt_destroy_data_then_rebuild" .valueError rfl rfl).1,
   (chaos_catches_fixed_propagate (fun _ => .error .valueError) 0
      "disrupt_destroy_data_then_rebuild" .valueError rfl rfl).2.1,
   (chaos_catches_fixed_propagate (fun _ => .error .valueError) 0
      "disrupt_destroy_data_then_rebuild" .valueError rfl rfl).2.2.2.1
     .valueError rfl⟩

/-- C3: when the membership view from the verification node still contains
the target's address after the decommission command, the action fails with
the membership assertion (the spec's `DecommissionVerificationError`) and
the in-memory node list is returned unchanged: no removal, destroy, or
replacement happens on this error path. -/
theorem decommission_verification_failure_keeps_nodes (nodes : List Node)
    (target : Node) (env : DecommissionEnv) (res : CmdResult)
    (hcmd : env.cmdOutcome = .ok res) (v : Node)
    (hv : pickVerificationNode nodes target env.verifRand env.verifFuel = some v)
    (hip : target.ip ∈ (env.nodeInfo v).map (fun node_info => node_info.ip)) :
    disrupt_nodetool_decommission nodes target env =
      some (nodes, .error (.assertionError decommissionAssertMsg)) := by
  unfold disrupt_nodetool_decommission
  rw [hcmd]
  dsimp only
  rw [hv]
  dsimp only
  rw [if_pos hip]

theorem decommission_verification_failure_keeps_nodes_witness :
    disrupt_nodetool_decommission [Node.mk 0 10 false, Node.mk 1 11 false]
      (Node.mk 0 10 false)
      ⟨.ok ⟨"nodetool --host localhost decommission", 1⟩, fun _ => 1, 1,
       fun _ => [NodeInfo.mk 10, NodeInfo.mk 11], fun _ => Node.mk 2 12 false, .ok ()⟩ =
      some ([Node.mk 0 10 false, Node.mk 1 11 false],
        .error (.assertionError decommissionAssertMsg)) :=
  decommission_verification_failure_keeps_nodes
    [Node.mk 0 10 false, Node.mk 1 11 false] (Node.mk 0 10 false)
    ⟨.ok ⟨"nodetool --host localhost decommission", 1⟩, fun _ => 1, 1,
     fun _ => [NodeInfo.mk 10, NodeInfo.mk 11], fun _ => Node.mk 2 12 false, .ok ()⟩
    ⟨"nodetool --host localhost decommission", 1⟩ rfl (Node.mk 1 11 false) rfl
    (by decide)

/-- C6: on the success path of the decommission action (command succeeded,
membership check passed, replacement initialized), the final node list has
the same length as before the action — exactly one node removed and one
fresh replacement appended — and no longer contains the old target. -/
theorem decommission_success_preserves_count (nodes : List Node)
    (target : Node) (env : DecommissionEnv) (res : CmdResult)
    (hcmd : env.cmdOutcome = .ok res) (v : Node)
    (hv : pickVerificationNode nodes target env.verifRand env.verifFuel = some v)
    (hip : target.ip ∉ (env.nodeInfo v).map (fun node_info => node_info.ip))
    (hmem : target ∈ nodes) (hnodup : nodes.Nodup)
    (hwait : env.waitInitOutcome = .ok ())
    (hfresh : env.mkNode 0 ≠ target) :
    disrupt_nodetool_decommission nodes target env =
      some (nodes.erase target ++ [env.mkNode 0], .ok ()) ∧
    (nodes.erase target ++ [env.mkNode 0]).length = nodes.length ∧
    target ∉ nodes.erase target ++ [env.mkNode 0] := by
  refine ⟨?_, ?_, ?_⟩
  · unfold disrupt_nodetool_decommission
    rw [hcmd]
    dsimp only
    rw [hv]
    dsimp only
    rw [if_neg hip, if_pos hmem]
    unfold Cluster.add_nodes
    rw [hwait]
    dsimp only
    have hr : List.range 1 = [0] := rfl
    rw [hr]
    rfl
  · rw [List.length_append, List.length_erase_of_mem hmem]
    have hpos : 1 ≤ nodes.length := List.length_pos_of_mem hmem
    simp [Nat.sub_add_cancel hpos]
  · intro habs
    rcases List.mem_append.mp habs with hl | hr
    · exact ((hnodup.mem_erase_iff).mp hl).1 rfl
    · exact hfresh (List.mem_singleton.mp hr).symm

theorem decommission_success_preserves_count_witness :
    disrupt_nodetool_decommission [Node.mk 0 10 false, Node.mk 1 11 false]
      (Node.mk 0 10 false)
      ⟨.ok ⟨"nodetool --host localhost decommission", 1⟩, fun _ => 1, 1,
       fun _ => [NodeInfo.mk 11], fun _ => Node.mk 2 12 false, .ok ()⟩ =
      some ([Node.mk 1 11 false, Node.mk 2 12 false], .ok ()) ∧
    ([Node.mk 1 11 false, Node.mk 2 12 false] : List Node).length =
      ([Node.mk 0 10 false, Node.mk 1 11 false] : List Node).length ∧
    Node.mk 0 10 false ∉ [Node.mk 1 11 false, Node.mk 2 12 false] :=
  decommission_success_preserves_count
    [Node.mk 0 10 false, Node.mk 1 11 false] (Node.mk 0 10 false)
    ⟨.ok ⟨"nodetool --host localhost decommission", 1⟩, fun _ => 1, 1,
     fun _ => [NodeInfo.mk 11], fun _ => Node.mk 2 12 false, .ok ()⟩
    ⟨"nodetool --host localhost decommission", 1⟩ rfl (Node.mk 1 11 false) rfl
    (by decide) (by decide) (by decide) rfl (by decide)

theorem runAux_noEventAfterSetObservation (seconds : Nat)
    (te : Option (Nat → Bool)) (sig : Nat → Bool) (d : Nat → Except Err Unit) :
    ∀ fuel i, noEventAfterSetObservation (runAux seconds te sig d i fuel).1 = true := by
  intro fuel
  induction fuel with
  | zero => intro i; rfl
  | succ n ih =>
    intro i
    rw [runAux_succ]
    cases hd : d i with
    | error e => rfl
    | ok u =>
      dsimp only
      cases te with
      | none => exact ih (i + 1)
      | some f =>
        by_cases hs : sig i
        · rw [if_pos hs]
          rfl
        · rw [if_neg hs]
          exact ih (i + 1)

theorem noEventAfterSetObservation_spec :
    ∀ (l1 t l2 : List Event), noEventAfterSetObservation t = true →
      t = l1 ++ Event.checkTermination true :: l2 → l2 = [] := by
  intro l1
  induction l1 with
  | nil =>
    intro t l2 h ht
    subst ht
    cases l2 with
    | nil => rfl
    | cons y ys => exact absurd h (by simp [noEventAfterSetObservation])
  | cons x l1' ih =>
    intro t l2 h ht
    subst ht
    cases x with
    | sleep s => exact ih (l1' ++ Event.checkTermination true :: l2) l2 h rfl
    | disrupt => exact ih (l1' ++ Event.checkTermination true :: l2) l2 h rfl
    | selectTarget => exact ih (l1' ++ Event.checkTermination true :: l2) l2 h rfl
    | checkTermination b =>
      cases b with
      | false => exact ih (l1' ++ Event.checkTermination true :: l2) l2 h rfl
      | true => simp [noEventAfterSetObservation] at h

/-- C2: in every execution of the scheduler loop, once the per-cycle
checkpoint observes the termination signal as set, nothing follows in the
trace: no further wait, disruption, checkpoint, or target re-selection
occurs — the loop exits before starting a new cycle. -/
theorem termination_observed_ends_run (interval : Nat)
    (termination_event : Option (Nat → Bool)) (selfSignal : Nat → Bool)
    (disruptOutcome : Nat → Except Err Unit) (fuel : Nat) (l1 l2 : List Event)
    (h : (Nemesis.run interval termination_event selfSignal disruptOutcome fuel).1 =
      l1 ++ Event.checkTermination true :: l2) :
    l2 = [] :=
  noEventAfterSetObservation_spec l1 _ l2
    (runAux_noEventAfterSetObservation (interval * 60) termination_event selfSignal
      disruptOutcome fuel 0) h

theorem termination_observed_ends_run_witness :
    (Nemesis.run 1 (some fun _ => true) (fun _ => true) (fun _ => .ok ()) 1).1 =
      [Event.sleep 60, Event.disrupt] ++ Event.checkTermination true :: [] ∧
    ([] : List Event) = [] :=
  ⟨rfl,
   termination_observed_ends_run 1 (some fun _ => true) (fun _ => true)
     (fun _ => .ok ()) 1 [Event.sleep 60, Event.disrupt] [] rfl⟩

theorem runAux_none_never_polls (seconds : Nat) (sig : Nat → Bool)
    (d : Nat → Except Err Unit) :
    ∀ fuel i,
      ((runAux seconds none sig d i fuel).1.all
        (fun ev => ! ev.isTerminationCheck)) = true ∧
      ((runAux seconds none sig d i fuel).2 = .running ∨
        ∃ e, (runAux seconds none sig d i fuel).2 = .raised e) := by
  intro fuel
  induction fuel with
  | zero => exact fun i => ⟨rfl, Or.inl rfl⟩
  | succ n ih =>
    intro i
    rw [runAux_succ]
    cases hd : d i with
    | error e => exact ⟨rfl, Or.inr ⟨e, rfl⟩⟩
    | ok u =>
      dsimp only
      refine ⟨?_, ?_⟩
      · show (true && (true && (true && _))) = true
        simp only [Bool.true_and]
        exact (ih (i + 1)).1
      · exact (ih (i + 1)).2

theorem runAux_ignores_run_argument_value (seconds : Nat) (f g : Nat → Bool)
    (sig : Nat → Bool) (d : Nat → Except Err Unit) :
    ∀ fuel i, runAux seconds (some f) sig d i fuel =
      runAux seconds (some g) sig d i fuel := by
  intro fuel
  induction fuel with
  | zero => intro i; rfl
  | succ n ih =>
    intro i
    rw [runAux_succ, runAux_succ]
    cases hd : d i with
    | error e => rfl
    | ok u =>
      dsimp only
      by_cases hs : sig i
      · rw [if_pos hs, if_pos hs]
      · rw [if_neg hs, if_neg hs, ih (i + 1)]

/-- C10: when `run` is invoked with its default `termination_event=None`,
the checkpoint is skipped on every cycle — the trace never contains a
termination poll and the loop never exits via the checkpoint (it either
exhausts the fuel still running or is aborted by a propagating disruption
error); moreover even with a non-`None` argument the polled value is the
construction-time `self.termination_event` attribute: the run argument's
own value has no influence on the execution. -/
theorem run_default_never_polls_and_argument_value_unread :
    (∀ (interval : Nat) (selfSignal : Nat → Bool)
        (disruptOutcome : Nat → Except Err Unit) (fuel : Nat),
      ((Nemesis.run interval none selfSignal disruptOutcome fuel).1.all
        (fun ev => ! ev.isTerminationCheck)) = true ∧
      ((Nemesis.run interval none selfSignal disruptOutcome fuel).2 = .running ∨
        ∃ e, (Nemesis.run interval none selfSignal disruptOutcome fuel).2 =
          .raised e)) ∧
    (∀ (f g : Nat → Bool) (interval : Nat) (selfSignal : Nat → Bool)
        (disruptOutcome : Nat → Except Err Unit) (fuel : Nat),
      Nemesis.run interval (some f) selfSignal disruptOutcome fuel =
        Nemesis.run interval (some g) selfSignal disruptOutcome fuel) :=
  ⟨fun interval sig d fuel => runAux_none_never_polls (interval * 60) sig d fuel 0,
   fun f g interval sig d fuel =>
     runAux_ignores_run_argument_value (interval * 60) f g sig d fuel 0⟩

end SdcmNemesis
